import Mathlib

/-! Verification of the trait-completeness scorer, citation-source tally and
display classification of `src/streamlit_app/streamlit_app.py`
(GWAS Trait Extraction Viewer).

The Python code is shallowly embedded: pandas rows become association lists
from column name to optional string (a SQL NULL / missing key is `none`),
Python floats become `ℚ`, `str.strip(chars)` / `str.upper()` / the `in`
substring test are re-implemented on `List Char`, and the inline scoring
loops of the three pages become `List.countP` folds.  Code that can raise
(`json.loads`, division) returns `Option`. -/

/-! ## Character constants (quote, backslash and bracket characters) -/

/-- The double-quote character, as used by `str.strip('"')` in the source. -/
def chQuote : Char := Char.ofNat 34

/-- The single-quote character, as used by `str.strip("'")` in the source. -/
def chSQuote : Char := Char.ofNat 39

/-- Backslash, the JSON escape character. -/
def chBackslash : Char := Char.ofNat 92

/-- Opening curly brace starting a JSON object. -/
def chLBrace : Char := Char.ofNat 123

/-- Closing curly brace ending a JSON object. -/
def chRBrace : Char := Char.ofNat 125

/-- Opening square bracket starting a JSON array. -/
def chLBrack : Char := Char.ofNat 91

/-- Closing square bracket ending a JSON array. -/
def chRBrack : Char := Char.ofNat 93

/-! ## Python string primitives used by the scorer -/

/-- Substring test on character lists: `listContainsSub pat l` is true iff
`pat` occurs contiguously inside `l`.  This is Python's `pat in l`. -/
def listContainsSub (pat : List Char) : List Char → Bool
  | [] => pat.isEmpty
  | c :: rest => pat.isPrefixOf (c :: rest) || listContainsSub pat rest

/-- Python's substring operator: `strContains s pat` is `pat in s`. -/
def strContains (s pat : String) : Bool :=
  listContainsSub pat.data s.data

/-- Strip every leading and trailing occurrence of the character `ch`,
Python's `s.strip(ch)` for a one-character argument (Python's `strip`
removes all leading/trailing characters of the set, not one layer). -/
def pyStrip1 (ch : Char) (s : String) : String :=
  String.mk (((s.data.dropWhile (fun c => c == ch)).reverse.dropWhile
    (fun c => c == ch)).reverse)

/-- The source's quote cleanup `str(value).strip('"').strip("'")`:
first all leading/trailing double quotes are removed, then all
leading/trailing single quotes. -/
def stripQuotes (s : String) : String :=
  pyStrip1 chSQuote (pyStrip1 chQuote s)

/-- Python `s.upper()` restricted to ASCII case mapping, which is exact for
every string the classifiers compare against. -/
def pyUpper (s : String) : String :=
  String.mk (s.data.map Char.toUpper)

/-- Python `s.lower()` restricted to ASCII case mapping (used only to state
the spec's case-insensitive classification). -/
def pyLower (s : String) : String :=
  String.mk (s.data.map Char.toLower)

/-! ## Records (pandas rows) -/

/-- A trait record row: association list from column name to the cell's
value, `none` standing for SQL NULL.  A missing column is simply an absent
key. -/
abbrev Record := List (String × Option String)

/-- `traits_row.get(field)`: the first value stored under `field`, or `none`
when the key is missing (pandas `Series.get` returns `None` then). -/
def recGet (r : Record) (field : String) : Option String :=
  match r.find? (fun kv => kv.1 == field) with
  | some kv => kv.2
  | none => none

/-- Whether `field` is present as a key of the record. -/
def recHasKey (r : Record) (field : String) : Bool :=
  (r.find? (fun kv => kv.1 == field)).isSome

/-- The fixed field list `trait_field_names` re-derived inline at
`streamlit_app.py:392-396`, `:440-444` and `:726-730` (15 names). -/
def trait_field_names : List String :=
  ["TRAIT", "GERMPLASM_NAME", "GENOME_VERSION", "CHROMOSOME",
   "PHYSICAL_POSITION", "GENE", "SNP_NAME", "VARIANT_ID", "VARIANT_TYPE",
   "EFFECT_SIZE", "GWAS_MODEL", "EVIDENCE_TYPE", "ALLELE", "ANNOTATION",
   "CANDIDATE_REGION"]

/-! ## The three inline completeness-scorer copies -/

/-- Sidebar copy (`render_document_selector`, `streamlit_app.py:398-404`):
the body of the `if value:` branch after quote stripping.  `True` iff
`value_str and "NOT_FOUND" not in value_str.upper()`. -/
def sidebar_is_valid (value_str : String) : Bool :=
  if value_str = "" then false
  else if strContains (pyUpper value_str) "NOT_FOUND" then false
  else true

/-- Sidebar copy: whether one field's raw cell counts toward `actual_found`
(`streamlit_app.py:398-404`). -/
def sidebar_field_found (value : Option String) : Bool :=
  match value with
  | none => false
  | some v => if v = "" then false else sidebar_is_valid (stripQuotes v)

/-- Sidebar copy: the `actual_found` accumulator over a field list. -/
def sidebar_actual_found (traits_row : Record) (fields : List String) : Nat :=
  fields.countP (fun field => sidebar_field_found (recGet traits_row field))

/-- Sidebar copy: `actual_accuracy = (actual_found / total_traits) * 100`
(`streamlit_app.py:406-407`).  The line has no zero guard, so a zero total
would raise `ZeroDivisionError`; that failure is modelled as `none`. -/
def sidebar_actual_accuracy (traits_row : Record) (fields : List String) :
    Option ℚ :=
  if fields.length = 0 then none
  else some (((sidebar_actual_found traits_row fields : ℚ) /
    (fields.length : ℚ)) * 100)

/-- Extracted-traits page copy (`page_extracted_traits`,
`streamlit_app.py:446-453`): `is_valid = value_str and "NOT_FOUND" not in
value_str.upper() and "NOT FOUND" not in value_str.upper()`. -/
def extracted_is_valid (value_str : String) : Bool :=
  if value_str = "" then false
  else if strContains (pyUpper value_str) "NOT_FOUND" then false
  else if strContains (pyUpper value_str) "NOT FOUND" then false
  else true

/-- Extracted-traits page copy: whether one field's raw cell counts toward
`actual_found` (`streamlit_app.py:446-453`). -/
def extracted_field_found (value : Option String) : Bool :=
  match value with
  | none => false
  | some v => if v = "" then false else extracted_is_valid (stripQuotes v)

/-- Extracted-traits page copy: the `actual_found` accumulator. -/
def extracted_actual_found (traits_row : Record) (fields : List String) :
    Nat :=
  fields.countP (fun field => extracted_field_found (recGet traits_row field))

/-- Extracted-traits page copy: `actual_accuracy = (actual_found /
total_traits) * 100 if total_traits > 0 else 0` (`streamlit_app.py:455-456`). -/
def extracted_actual_accuracy (traits_row : Record) (fields : List String) :
    ℚ :=
  if fields.length > 0 then
    ((extracted_actual_found traits_row fields : ℚ) / (fields.length : ℚ)) * 100
  else 0

/-- Analytics page copy (`page_analytics`, `streamlit_app.py:732-738`):
textually the same test as the sidebar copy (`NOT_FOUND` only). -/
def analytics_is_valid (value_str : String) : Bool :=
  if value_str = "" then false
  else if strContains (pyUpper value_str) "NOT_FOUND" then false
  else true

/-- Analytics page copy: whether one field counts toward `extracted`. -/
def analytics_field_found (value : Option String) : Bool :=
  match value with
  | none => false
  | some v => if v = "" then false else analytics_is_valid (stripQuotes v)

/-- Analytics page copy: the `extracted` accumulator
(`streamlit_app.py:732-738`). -/
def analytics_extracted (traits_row : Record) (fields : List String) : Nat :=
  fields.countP (fun field => analytics_field_found (recGet traits_row field))

/-! ## JSON values and a model of Python's `json.loads`

The tally reads `json.loads(traits_row['FIELD_CITATIONS'])`.  `json.loads`
is standard-library code that is not part of this repository, so it is
modelled here as a recursive-descent parser of the JSON grammar (RFC 8259):
objects, arrays, strings with escapes, numbers, `true`/`false`/`null`.
Duplicate object keys keep the last value, as Python dicts do.  A parse
error (Python's raised `JSONDecodeError`) is `none`. -/

/-- A parsed JSON value.  Number literals keep their lexeme; the inputs the
claims exercise contain only strings. -/
inductive Json where
  | null : Json
  | bool : Bool → Json
  | num : String → Json
  | str : String → Json
  | arr : List Json → Json
  | obj : List (String × Json) → Json

/-- Whether a parsed value is a JSON object (a Python dict). -/
def Json.isObj : Json → Bool
  | Json.obj _ => true
  | _ => false

/-- JSON insignificant whitespace. -/
def jsonWs (cs : List Char) : List Char :=
  cs.dropWhile (fun c => c == ' ' || c == Char.ofNat 10 ||
    c == Char.ofNat 9 || c == Char.ofNat 13)

/-- Value of a hexadecimal digit. -/
def hexVal (c : Char) : Option Nat :=
  if 48 ≤ c.toNat && c.toNat ≤ 57 then some (c.toNat - 48)
  else if 97 ≤ c.toNat && c.toNat ≤ 102 then some (c.toNat - 87)
  else if 65 ≤ c.toNat && c.toNat ≤ 70 then some (c.toNat - 55)
  else none

/-- Single-character JSON string escapes. -/
def escChar (e : Char) : Option Char :=
  if e = chQuote then some chQuote
  else if e = chBackslash then some chBackslash
  else if e = '/' then some '/'
  else if e = 'b' then some (Char.ofNat 8)
  else if e = 'f' then some (Char.ofNat 12)
  else if e = 'n' then some (Char.ofNat 10)
  else if e = 'r' then some (Char.ofNat 13)
  else if e = 't' then some (Char.ofNat 9)
  else none

/-- Parse the body of a JSON string after the opening quote; returns the
decoded string and the input after the closing quote. -/
def parseStringBody (fuel : Nat) (cs : List Char) :
    Option (String × List Char) :=
  match fuel with
  | 0 => none
  | f + 1 =>
    match cs with
    | [] => none
    | c :: rest =>
      if c = chQuote then some ("", rest)
      else if c = chBackslash then
        match rest with
        | [] => none
        | e :: rest2 =>
          if e = 'u' then
            match rest2 with
            | h1 :: h2 :: h3 :: h4 :: rest3 =>
              match hexVal h1, hexVal h2, hexVal h3, hexVal h4 with
              | some a, some b, some c2, some d =>
                match parseStringBody f rest3 with
                | some (s, r) =>
                  some (String.mk (Char.ofNat (((a * 16 + b) * 16 + c2) * 16 + d)
                    :: s.data), r)
                | none => none
              | _, _, _, _ => none
            | _ => none
          else
            match escChar e with
            | some ec =>
              match parseStringBody f rest2 with
              | some (s, r) => some (String.mk (ec :: s.data), r)
              | none => none
            | none => none
      else
        match parseStringBody f rest with
        | some (s, r) => some (String.mk (c :: s.data), r)
        | none => none

/-- Decimal digit test. -/
def isDigitCh (c : Char) : Bool := 48 ≤ c.toNat && c.toNat ≤ 57

/-- Parse a JSON number literal, returning its lexeme. -/
def parseNumber (cs : List Char) : Option (String × List Char) :=
  let signSplit :=
    match cs with
    | c :: rest => if c = '-' then ([c], rest) else (([] : List Char), cs)
    | [] => (([] : List Char), cs)
  let sign := signSplit.1
  let intSplit := signSplit.2.span isDigitCh
  let ip := intSplit.1
  if ip.isEmpty then none
  else if 1 < ip.length && ip.headD ' ' = '0' then none
  else
    let fracRes : Option (List Char × List Char) :=
      match intSplit.2 with
      | c :: rest =>
        if c = '.' then
          let ds := rest.span isDigitCh
          if ds.1.isEmpty then none else some (c :: ds.1, ds.2)
        else some ([], intSplit.2)
      | [] => some ([], [])
    match fracRes with
    | none => none
    | some (fp, cs3) =>
      let expRes : Option (List Char × List Char) :=
        match cs3 with
        | c :: rest =>
          if c = 'e' || c = 'E' then
            let signSplit2 :=
              match rest with
              | c2 :: r2 => if c2 = '+' || c2 = '-' then ([c2], r2) else (([] : List Char), rest)
              | [] => (([] : List Char), rest)
            let ds := signSplit2.2.span isDigitCh
            if ds.1.isEmpty then none
            else some (c :: signSplit2.1 ++ ds.1, ds.2)
          else some ([], cs3)
        | [] => some ([], [])
      match expRes with
      | none => none
      | some (ep, cs4) => some (String.mk (sign ++ ip ++ fp ++ ep), cs4)

/-- Match a literal keyword (`true`, `false`, `null`). -/
def expectLit : List Char → List Char → Option (List Char)
  | [], cs => some cs
  | p :: ps, c :: cs => if c = p then expectLit ps cs else none
  | _ :: _, [] => none

/-- Python-dict insertion: replace an existing key in place, else append. -/
def dictInsert (d : List (String × Json)) (k : String) (v : Json) :
    List (String × Json) :=
  if d.any (fun kv => kv.1 == k) then
    d.map (fun kv => if kv.1 == k then (k, v) else kv)
  else d ++ [(k, v)]

/-- Collapse parsed members into a Python dict (duplicate keys keep the
last value, at the first occurrence's position). -/
def toDict (kvs : List (String × Json)) : List (String × Json) :=
  kvs.foldl (fun d kv => dictInsert d kv.1 kv.2) []

mutual

/-- Parse one JSON value (leading whitespace allowed). -/
def parseValue (fuel : Nat) (cs : List Char) : Option (Json × List Char) :=
  match fuel with
  | 0 => none
  | f + 1 =>
    match jsonWs cs with
    | [] => none
    | c :: rest =>
      if c = chQuote then
        match parseStringBody (f + 1) rest with
        | some (s, r) => some (Json.str s, r)
        | none => none
      else if c = chLBrace then
        match jsonWs rest with
        | c2 :: r2 =>
          if c2 = chRBrace then some (Json.obj [], r2)
          else
            match parseMembers f (jsonWs rest) with
            | some (kvs, r) => some (Json.obj (toDict kvs), r)
            | none => none
        | [] => none
      else if c = chLBrack then
        match jsonWs rest with
        | c2 :: r2 =>
          if c2 = chRBrack then some (Json.arr [], r2)
          else
            match parseItems f (jsonWs rest) with
            | some (items, r) => some (Json.arr items, r)
            | none => none
        | [] => none
      else if c = 't' then
        match expectLit "true".data (c :: rest) with
        | some r => some (Json.bool true, r)
        | none => none
      else if c = 'f' then
        match expectLit "false".data (c :: rest) with
        | some r => some (Json.bool false, r)
        | none => none
      else if c = 'n' then
        match expectLit "null".data (c :: rest) with
        | some r => some (Json.null, r)
        | none => none
      else
        match parseNumber (c :: rest) with
        | some (lex, r) => some (Json.num lex, r)
        | none => none

/-- Parse the members of a non-empty JSON object, consuming the closing
brace. -/
def parseMembers (fuel : Nat) (cs : List Char) :
    Option (List (String × Json) × List Char) :=
  match fuel with
  | 0 => none
  | f + 1 =>
    match jsonWs cs with
    | [] => none
    | c :: rest =>
      if c = chQuote then
        match parseStringBody (f + 1) rest with
        | some (k, r1) =>
          match jsonWs r1 with
          | c2 :: r2 =>
            if c2 = ':' then
              match parseValue f r2 with
              | some (v, r3) =>
                match jsonWs r3 with
                | c3 :: r4 =>
                  if c3 = ',' then
                    match parseMembers f r4 with
                    | some (kvs, r5) => some ((k, v) :: kvs, r5)
                    | none => none
                  else if c3 = chRBrace then some ([(k, v)], r4)
                  else none
                | [] => none
              | none => none
            else none
          | [] => none
        | none => none
      else none

/-- Parse the items of a non-empty JSON array, consuming the closing
bracket. -/
def parseItems (fuel : Nat) (cs : List Char) :
    Option (List Json × List Char) :=
  match fuel with
  | 0 => none
  | f + 1 =>
    match parseValue f cs with
    | some (v, r1) =>
      match jsonWs r1 with
      | c2 :: r2 =>
        if c2 = ',' then
          match parseItems f r2 with
          | some (items, r3) => some (v :: items, r3)
          | none => none
        else if c2 = chRBrack then some ([v], r2)
        else none
      | [] => none
    | none => none

end

/-- The model of Python's `json.loads`: parse one value, allow trailing
whitespace only; anything else raises, i.e. returns `none`. -/
def json_loads (s : String) : Option Json :=
  match parseValue (s.data.length + 2) s.data with
  | some (j, rest) => if jsonWs rest = [] then some j else none
  | none => none

/-! ## Python `str()` of a parsed JSON value

The tally applies `str(v)` to each dict value.  For the strings the data
model stores this is the identity; scalars and containers are rendered the
way Python prints them (number lexemes are kept verbatim, which is exact
for integer literals). -/

/-- Join strings with a separator, Python's `sep.join`. -/
def pyJoin (sep : String) : List String → String
  | [] => ""
  | [s] => s
  | s :: rest => s ++ sep ++ pyJoin sep rest

mutual

/-- Python `repr`-style rendering of a JSON value (strings in quotes). -/
def pyRepr : Json → String
  | Json.null => "None"
  | Json.bool b => if b then "True" else "False"
  | Json.num lex => lex
  | Json.str s => String.mk (chSQuote :: s.data ++ [chSQuote])
  | Json.arr items => "[" ++ pyJoin ", " (pyReprList items) ++ "]"
  | Json.obj kvs =>
    String.mk [chLBrace] ++ pyJoin ", " (pyReprMembers kvs) ++
      String.mk [chRBrace]

/-- Renderings of the items of a JSON array. -/
def pyReprList : List Json → List String
  | [] => []
  | j :: rest => pyRepr j :: pyReprList rest

/-- Renderings of the members of a JSON object. -/
def pyReprMembers : List (String × Json) → List String
  | [] => []
  | kv :: rest =>
    (String.mk (chSQuote :: kv.1.data ++ [chSQuote]) ++ ": " ++ pyRepr kv.2)
      :: pyReprMembers rest

end

/-- Python `str(v)` for a parsed JSON value: a string renders to itself,
everything else to its `repr`. -/
def pyStr (j : Json) : String :=
  match j with
  | Json.str s => s
  | _ => pyRepr j

/-! ## The analytics-page citation source tally -/

/-- One source-label count (`streamlit_app.py:757-759`):
`sum(1 for v in citations.values() if label in str(v))`. -/
def count_label (citations : List (String × Json)) (label : String) : Nat :=
  citations.countP (fun kv => strContains (pyStr kv.2) label)

/-- The analytics-page citation block (`streamlit_app.py:754-769`):
`citations = json.loads(fc) if fc else {}` followed by the three label
counts, all inside `try/except`.  A raised exception (parse failure, or a
parsed non-dict on which `.values()` fails) is caught by the `except`
branch, which shows a warning and produces no counts: that outcome is
`none`.  `some (p1, p2, llm)` is the rendered tally. -/
def analytics_citation_counts (field_citations : Option String) :
    Option (Nat × Nat × Nat) :=
  match field_citations with
  | none => some (0, 0, 0)
  | some s =>
    if s = "" then some (0, 0, 0)
    else
      match json_loads s with
      | some (Json.obj kvs) =>
        some (count_label kvs "Phase1", count_label kvs "Phase2",
          count_label kvs "LLM")
      | some _ => none
      | none => none

/-! ## Whole trait rows and the accuracy the pages display -/

/-- A trait row together with the metadata columns the claims mention. -/
structure TraitRow where
  fields : Record
  extraction_accuracy_pct : ℚ
  field_citations : Option String

/-- The sidebar's "Accuracy" metric (`streamlit_app.py:406-410`): the
locally recomputed `actual_accuracy` over the fixed field list. -/
def sidebar_accuracy_metric (row : TraitRow) : Option ℚ :=
  sidebar_actual_accuracy row.fields trait_field_names

/-- The extracted-traits page's "Accuracy" stat (`streamlit_app.py:456,467,
481-482`): the locally recomputed `actual_accuracy`. -/
def extracted_accuracy_stat (row : TraitRow) : ℚ :=
  extracted_actual_accuracy row.fields trait_field_names

/-- The analytics page's "Extraction Accuracy" metric
(`streamlit_app.py:748`): the value it renders is
`traits_row['EXTRACTION_ACCURACY_PCT']`, the server-reported column. -/
def analytics_accuracy_metric (row : TraitRow) : ℚ :=
  row.extraction_accuracy_pct

/-! ## The trait display cards -/

/-- The display order list `trait_fields` (`streamlit_app.py:491-506`):
14 lower-case field names (the scorer's `EVIDENCE_TYPE` has no card). -/
def trait_fields : List String :=
  ["trait", "germplasm_name", "genome_version", "chromosome",
   "physical_position", "gene", "snp_name", "variant_id", "variant_type",
   "effect_size", "gwas_model", "allele", "annotation", "candidate_region"]

/-- The card classification `is_missing` (`streamlit_app.py:522-534`),
applied to the raw cell `traits_row[field.upper()]`: quote-strip a truthy
value, then `not value or value == "Not in paper" or "NOT_FOUND" in
value.upper() or "NOT FOUND" in value.upper() or value == "None" or
value == "NULL"`. -/
def display_is_missing (value : Option String) : Bool :=
  match value with
  | none => true
  | some v =>
    if v = "" then true
    else
      let vs := stripQuotes v
      if vs = "" then true
      else if vs = "Not in paper" then true
      else if strContains (pyUpper vs) "NOT_FOUND" then true
      else if strContains (pyUpper vs) "NOT FOUND" then true
      else if vs = "None" then true
      else if vs = "NULL" then true
      else false

/-- Number of display cards rendered with the "Found" badge
(`streamlit_app.py:517-559`).  `traits_row[field.upper()]` is bracket
access; the theorems about this definition assume every display key is
present, under which it agrees with `recGet`. -/
def display_found_cards (traits_row : Record) : Nat :=
  trait_fields.countP (fun field =>
    !(display_is_missing (recGet traits_row (pyUpper field))))

/-! ## Claim-language definitions

These follow the spec's wording (not the source) and are compared against
the source-derived definitions above. -/

/-- Quote character test used by the spec's "single or double quote". -/
def isQuoteCh (c : Char) : Bool := c == chQuote || c == chSQuote

/-- The spec's trimming step as worded: one layer of leading/trailing
single or double quote characters. -/
def spec_one_layer_strip (s : String) : String :=
  let l1 :=
    match s.data with
    | c :: rest => if isQuoteCh c then rest else s.data
    | [] => []
  let l2 :=
    match l1.reverse with
    | c :: rest => if isQuoteCh c then rest.reverse else l1
    | [] => l1
  String.mk l2

/-- Claim C1's classification of the trimmed value: not found iff,
case-insensitively, empty, `"none"`, `"null"`, `"not in paper"`, or
containing `"not_found"` or `"not found"`. -/
def spec_not_found_C1 (s : String) : Bool :=
  if s = "" then true
  else if pyLower s = "none" then true
  else if pyLower s = "null" then true
  else if pyLower s = "not in paper" then true
  else if strContains (pyLower s) "not_found" then true
  else if strContains (pyLower s) "not found" then true
  else false

/-- The amended C1 classification: a raw cell is counted "not found" by the
scorer exactly when it is absent, or its quote-stripped form is empty or
contains `NOT_FOUND` or `NOT FOUND` case-insensitively. -/
def amended_not_found_C1 (value : Option String) : Bool :=
  match value with
  | none => true
  | some v =>
    if stripQuotes v = "" then true
    else if strContains (pyUpper (stripQuotes v)) "NOT_FOUND" then true
    else if strContains (pyUpper (stripQuotes v)) "NOT FOUND" then true
    else false

/-- The exact condition on which the extracted-traits scorer copy diverges
from the sidebar/analytics copies: a nonempty stripped value containing
`NOT FOUND` (with a space) but not `NOT_FOUND`, case-insensitively. -/
def space_only_sentinel (value : Option String) : Bool :=
  match value with
  | none => false
  | some v =>
    if stripQuotes v = "" then false
    else if strContains (pyUpper (stripQuotes v)) "NOT_FOUND" then false
    else strContains (pyUpper (stripQuotes v)) "NOT FOUND"

/-- The extra, case-sensitive literal sentinels that only the display-card
classifier checks (`value == "None"`, `== "NULL"`, `== "Not in paper"`). -/
def literal_sentinel (value : Option String) : Bool :=
  match value with
  | none => false
  | some v =>
    if v = "" then false
    else
      let vs := stripQuotes v
      if vs = "None" then true
      else if vs = "NULL" then true
      else if vs = "Not in paper" then true
      else false

/-! ## Concrete inputs used by counterexamples and witnesses -/

/-- A row whose 15 fixed fields all hold the explicit sentinel. -/
def recAllNotFound : Record :=
  trait_field_names.map (fun f => (f, some "NOT_FOUND"))

/-- A trait row with all-sentinel fields but a server-reported accuracy of
50 percent. -/
def rowC2 : TraitRow :=
  { fields := recAllNotFound, extraction_accuracy_pct := 50,
    field_citations := none }

/-- The spec's worked scorer example: trait "Plant height", gene
"NOT_FOUND", chromosome empty. -/
def recC8 : Record :=
  [("TRAIT", some "Plant height"), ("GENE", some "NOT_FOUND"),
   ("CHROMOSOME", some "")]

/-- The three-field list of the worked example. -/
def fieldsC8 : List String := ["TRAIT", "GENE", "CHROMOSOME"]

/-- A record whose trait value contains the space variant `not found`
but not the underscore sentinel. -/
def recC9 : Record := [("TRAIT", some "not found")]

/-- A record whose only scorer-found field is `EVIDENCE_TYPE`, the one
field without a display card. -/
def recC10 : Record :=
  trait_field_names.map (fun f =>
    (f, if f = "EVIDENCE_TYPE" then some "GWAS" else some "NOT_FOUND"))

/-- The spec's citation-tally example JSON. -/
def strC5 : String :=
  "\x7b\"gene\":\"Phase1 extraction\",\"trait\":\"Phase1/Phase2 consensus\"\x7d"

/-- The spec's malformed citation JSON example. -/
def strBadJson : String := "\x7bnot valid"

/-- A value of four double-quote characters: one-layer trimming leaves a
nonempty string, Python's strip leaves an empty one. -/
def fourQuotes : String := "\"\"\"\""

/-! ## Helper lemmas -/

theorem countP_eq_of_mem_eq {α : Type} (l : List α) (p q : α → Bool)
    (h : ∀ a ∈ l, p a = q a) : l.countP p = l.countP q :=
  List.countP_congr (fun x hx => by rw [h x hx])

theorem extracted_field_found_some (v : String) :
    extracted_field_found (some v) = extracted_is_valid (stripQuotes v) := by
  by_cases h : v = ""
  · subst h; decide
  · simp [extracted_field_found, h]

theorem sidebar_field_found_some (v : String) :
    sidebar_field_found (some v) = sidebar_is_valid (stripQuotes v) := by
  by_cases h : v = ""
  · subst h; decide
  · simp [sidebar_field_found, h]

theorem pyStrip1_wrap (ch : Char) (l : List Char) :
    pyStrip1 ch (String.mk (ch :: l ++ [ch])) = pyStrip1 ch (String.mk l) := by
  have hch : ((fun c => c == ch) ch) = true := by simp
  have hcons : List.dropWhile (fun c => c == ch) (ch :: (l ++ [ch]))
      = List.dropWhile (fun c => c == ch) (l ++ [ch]) := by
    rw [List.dropWhile_cons, if_pos hch]
  have hsingle : List.dropWhile (fun c => c == ch) [ch] = [] := by
    rw [List.dropWhile_cons, if_pos hch]; rfl
  unfold pyStrip1
  rw [show (String.mk (ch :: l ++ [ch])).data = ch :: (l ++ [ch]) from rfl]
  rw [hcons, List.dropWhile_append]
  by_cases h : (List.dropWhile (fun c => c == ch) l).isEmpty = true
  · rw [if_pos h, hsingle]
    rw [List.isEmpty_iff.mp h]
  · rw [if_neg h, List.reverse_append]
    rw [show ([ch] : List Char).reverse = [ch] from rfl]
    rw [show ([ch] : List Char) ++ (List.dropWhile (fun c => c == ch) l).reverse
      = ch :: (List.dropWhile (fun c => c == ch) l).reverse from rfl]
    rw [List.dropWhile_cons, if_pos hch]

theorem stripQuotes_wrap (s : String) :
    stripQuotes ("\"" ++ s ++ "\"") = stripQuotes s := by
  have he : ("\"" ++ s ++ "\"") = String.mk (chQuote :: s.data ++ [chQuote]) := by
    apply String.ext
    rw [String.data_append, String.data_append]
    rfl
  rw [he]
  unfold stripQuotes
  rw [pyStrip1_wrap]

theorem recGet_eq_none_of_not_hasKey (r : Record) (f : String)
    (h : recHasKey r f = false) : recGet r f = none := by
  unfold recGet
  unfold recHasKey at h
  cases hf : r.find? (fun kv => kv.1 == f) with
  | none => rfl
  | some kv => rw [hf] at h; simp at h

theorem recGet_append_self (r : Record) (f : String) (v : Option String)
    (h : recHasKey r f = false) : recGet (r ++ [(f, v)]) f = v := by
  unfold recGet
  rw [List.find?_append]
  unfold recHasKey at h
  cases hf : r.find? (fun kv => kv.1 == f) with
  | none => simp
  | some kv => rw [hf] at h; simp at h

theorem recGet_append_ne (r : Record) (f g : String) (v : Option String)
    (h : g ≠ f) : recGet (r ++ [(f, v)]) g = recGet r g := by
  unfold recGet
  rw [List.find?_append]
  cases hf : r.find? (fun kv => kv.1 == g) with
  | none =>
    simp only [Option.none_or]
    have hb : (f == g) = false := by
      simp only [beq_eq_false_iff_ne]
      exact fun hfg => h hfg.symm
    simp [List.find?, hb]
  | some kv => simp

theorem amended_not_found_C1_some (s : String) :
    amended_not_found_C1 (some s) =
      (if stripQuotes s = "" then true
       else if strContains (pyUpper (stripQuotes s)) "NOT_FOUND" then true
       else if strContains (pyUpper (stripQuotes s)) "NOT FOUND" then true
       else false) := rfl

theorem space_only_sentinel_some (s : String) :
    space_only_sentinel (some s) =
      (if stripQuotes s = "" then false
       else if strContains (pyUpper (stripQuotes s)) "NOT_FOUND" then false
       else strContains (pyUpper (stripQuotes s)) "NOT FOUND") := rfl

theorem literal_sentinel_some (s : String) :
    literal_sentinel (some s) =
      (if s = "" then false
       else if stripQuotes s = "None" then true
       else if stripQuotes s = "NULL" then true
       else if stripQuotes s = "Not in paper" then true
       else false) := rfl

theorem display_is_missing_some (s : String) :
    display_is_missing (some s) =
      (if s = "" then true
       else if stripQuotes s = "" then true
       else if stripQuotes s = "Not in paper" then true
       else if strContains (pyUpper (stripQuotes s)) "NOT_FOUND" then true
       else if strContains (pyUpper (stripQuotes s)) "NOT FOUND" then true
       else if stripQuotes s = "None" then true
       else if stripQuotes s = "NULL" then true
       else false) := rfl

theorem extracted_field_found_eq_amended (v : Option String) :
    extracted_field_found v = !(amended_not_found_C1 v) := by
  cases v with
  | none => rfl
  | some s =>
    rw [extracted_field_found_some, amended_not_found_C1_some]
    unfold extracted_is_valid
    split_ifs <;> rfl

theorem extracted_eq_sidebar_field (v : Option String)
    (h : space_only_sentinel v = false) :
    extracted_field_found v = sidebar_field_found v := by
  cases v with
  | none => rfl
  | some s =>
    rw [extracted_field_found_some, sidebar_field_found_some]
    rw [space_only_sentinel_some] at h
    unfold extracted_is_valid sidebar_is_valid
    split_ifs at * <;> simp_all

theorem display_agrees (v : Option String) (h : literal_sentinel v = false) :
    (!(display_is_missing v)) = extracted_field_found v := by
  cases v with
  | none => rfl
  | some s =>
    by_cases h1 : s = ""
    · subst h1; rfl
    · rw [extracted_field_found_some, display_is_missing_some]
      rw [literal_sentinel_some] at h
      rw [if_neg h1] at h ⊢
      unfold extracted_is_valid
      split_ifs at * <;> simp_all

theorem trait_names_perm :
    trait_field_names.Perm ((trait_fields.map pyUpper) ++ ["EVIDENCE_TYPE"]) := by
  decide

/-! ## Claim C1 -/

/-- C1 is false as stated: the value `"None"` satisfies the claim's
not-found classification (case-insensitively equal to `"none"`), yet both
scorer copies classify it as found, because the counting loops only test
emptiness and the `NOT_FOUND` / `NOT FOUND` substrings. -/
theorem C1_counterexample :
    spec_not_found_C1 (stripQuotes "None") = true ∧
    extracted_field_found (some "None") = true ∧
    sidebar_field_found (some "None") = true := by
  decide

/-- C1 (amended): the extracted-traits scorer classifies a field as not
found exactly when the value is absent or its quote-stripped form is empty
or contains `not_found` or `not found` case-insensitively; `none`, `null`
and `not in paper` are NOT sentinels for the scorer (only the display
cards treat them, case-sensitively, as missing).  `found_count` counts
exactly the complement. -/
theorem C1_amended :
    (∀ value : Option String,
      extracted_field_found value = !(amended_not_found_C1 value)) ∧
    (∀ (r : Record) (fields : List String),
      extracted_actual_found r fields =
        fields.countP (fun f => !(amended_not_found_C1 (recGet r f)))) := by
  refine ⟨extracted_field_found_eq_amended, fun r fields => ?_⟩
  unfold extracted_actual_found
  exact countP_eq_of_mem_eq _ _ _
    (fun g _ => extracted_field_found_eq_amended (recGet r g))

/-! ## Claim C6 -/

/-- C6 is false as stated: on a value of four double-quote characters,
trimming one layer of quotes leaves the nonempty string of two quotes,
which the scorer's post-trim test classifies as found, but the code's
`strip` removes every layer and classifies the value as not found. -/
theorem C6_counterexample :
    extracted_field_found (some fourQuotes) = false ∧
    extracted_is_valid (spec_one_layer_strip fourQuotes) = true := by
  decide

/-- C6 (amended): the scorer strips ALL leading/trailing double quotes and
then all leading/trailing single quotes (Python `strip` semantics), so
wrapping any value in one more layer of double quotes never changes its
classification; in particular the quoted sentinel and the bare sentinel
classify identically. -/
theorem C6_amended (s : String) :
    extracted_field_found (some ("\"" ++ s ++ "\"")) =
      extracted_field_found (some s) ∧
    extracted_field_found (some "\"NOT_FOUND\"") =
      extracted_field_found (some "NOT_FOUND") := by
  constructor
  · rw [extracted_field_found_some, extracted_field_found_some,
      stripQuotes_wrap]
  · decide

/-! ## Claim C8 -/

/-- C8: the spec's worked example.  On the record with trait
"Plant height", gene "NOT_FOUND" and empty chromosome, over the
three-field list, the scorer returns `found_count = 1`, `total = 3` and
`accuracy_pct = 100/3 ≈ 33.33`. -/
theorem C8_example :
    extracted_actual_found recC8 fieldsC8 = 1 ∧
    fieldsC8.length = 3 ∧
    extracted_actual_accuracy recC8 fieldsC8 = 100 / 3 ∧
    |extracted_actual_accuracy recC8 fieldsC8 - 3333 / 100| < 1 / 100 := by
  have h1 : extracted_actual_found recC8 fieldsC8 = 1 := by decide
  have h2 : fieldsC8.length = 3 := by decide
  have hacc : extracted_actual_accuracy recC8 fieldsC8 = 100 / 3 := by
    unfold extracted_actual_accuracy
    rw [h1, h2]
    norm_num
  refine ⟨h1, h2, hacc, ?_⟩
  rw [hacc, abs_sub_lt_iff]
  norm_num

/-! ## Claim C4 -/

/-- C4: the extracted-traits scorer computes
`accuracy_pct = 100 * found_count / total` whenever the field list is
nonempty and returns 0 on an empty field list without dividing by zero;
and the guard-free sidebar division is only ever run on the fixed 15-name
list, where it succeeds. -/
theorem C4_scorer_guard (r : Record) (fields : List String) :
    (fields.length ≠ 0 →
      extracted_actual_accuracy r fields =
        100 * (extracted_actual_found r fields : ℚ) / (fields.length : ℚ)) ∧
    (fields.length = 0 → extracted_actual_accuracy r fields = 0) ∧
    (sidebar_actual_accuracy r trait_field_names).isSome = true := by
  refine ⟨?_, ?_, ?_⟩
  · intro h
    unfold extracted_actual_accuracy
    rw [if_pos (Nat.pos_of_ne_zero h)]
    ring
  · intro h
    unfold extracted_actual_accuracy
    rw [h]
    norm_num
  · have h15 : trait_field_names.length = 15 := by decide
    unfold sidebar_actual_accuracy
    rw [h15]
    norm_num

/-- Witness for C4 at concrete inputs: the empty field list yields 0, a
one-field list takes the division branch, and the sidebar division on the
fixed list produces a value. -/
theorem C4_witness :
    extracted_actual_accuracy [] [] = 0 ∧
    extracted_actual_accuracy [] ["TRAIT"] =
      100 * (extracted_actual_found [] ["TRAIT"] : ℚ) /
        ((["TRAIT"] : List String).length : ℚ) ∧
    (sidebar_actual_accuracy [] trait_field_names).isSome = true :=
  ⟨(C4_scorer_guard [] []).2.1 rfl,
   (C4_scorer_guard [] ["TRAIT"]).1 (by decide),
   (C4_scorer_guard [] trait_field_names).2.2⟩

/-! ## Claim C7 -/

/-- C7: a genuinely missing field key is treated by the scorer exactly
like the explicit `NOT_FOUND` sentinel: `Series.get` yields `None`, which
counts as not found, and appending the explicit sentinel under the missing
key leaves `found_count` unchanged.  No error path exists. -/
theorem C7_missing_key (r : Record) (fields : List String) (f : String)
    (h : recHasKey r f = false) :
    extracted_field_found (recGet r f) = false ∧
    extracted_field_found (recGet r f) =
      extracted_field_found (some "NOT_FOUND") ∧
    extracted_actual_found (r ++ [(f, some "NOT_FOUND")]) fields =
      extracted_actual_found r fields := by
  have hn : recGet r f = none := recGet_eq_none_of_not_hasKey r f h
  have hsent : extracted_field_found (some "NOT_FOUND") = false := by decide
  refine ⟨by rw [hn]; rfl, by rw [hn, hsent]; rfl, ?_⟩
  unfold extracted_actual_found
  apply countP_eq_of_mem_eq
  intro g _
  by_cases hgf : g = f
  · subst hgf
    rw [recGet_append_self r g _ h, hn, hsent]
    rfl
  · rw [recGet_append_ne r f g _ hgf]

/-- Witness for C7: a record lacking the `TRAIT` key scores it as not
found, identically to an explicit sentinel. -/
theorem C7_witness :
    extracted_field_found (recGet [("GENE", some "x")] "TRAIT") = false ∧
    extracted_field_found (recGet [("GENE", some "x")] "TRAIT") =
      extracted_field_found (some "NOT_FOUND") ∧
    extracted_actual_found
      ([("GENE", some "x")] ++ [("TRAIT", some "NOT_FOUND")])
      trait_field_names =
      extracted_actual_found [("GENE", some "x")] trait_field_names :=
  C7_missing_key [("GENE", some "x")] trait_field_names "TRAIT" (by decide)

theorem rowC2_recomputed_zero : extracted_accuracy_stat rowC2 = 0 := by
  have hf : extracted_actual_found recAllNotFound trait_field_names = 0 := by
    decide
  have h15 : trait_field_names.length = 15 := by decide
  unfold extracted_accuracy_stat extracted_actual_accuracy
  rw [show rowC2.fields = recAllNotFound from rfl, hf, h15]
  norm_num

/-! ## Claim C2 -/

/-- C2 is false as stated: on a row whose fields are all `NOT_FOUND` but
whose stored `EXTRACTION_ACCURACY_PCT` is 50, the analytics page's
"Extraction Accuracy" metric displays the stored 50, not the locally
recomputed 0 that the sidebar and the extracted-traits page display. -/
theorem C2_counterexample :
    analytics_accuracy_metric rowC2 = 50 ∧
    extracted_accuracy_stat rowC2 = 0 ∧
    sidebar_accuracy_metric rowC2 = some 0 ∧
    analytics_accuracy_metric rowC2 ≠ extracted_accuracy_stat rowC2 := by
  have h1 : analytics_accuracy_metric rowC2 = 50 := rfl
  have h2 := rowC2_recomputed_zero
  have h3 : sidebar_accuracy_metric rowC2 = some 0 := by
    have hf : sidebar_actual_found recAllNotFound trait_field_names = 0 := by
      decide
    have h15 : trait_field_names.length = 15 := by decide
    unfold sidebar_accuracy_metric sidebar_actual_accuracy
    rw [show rowC2.fields = recAllNotFound from rfl, hf, h15]
    norm_num
  exact ⟨h1, h2, h3, by rw [h1, h2]; norm_num⟩

/-- C2 (amended): the sidebar metric and the extracted-traits stat are
locally recomputed — they never depend on the stored
`extraction_accuracy_pct` — but the analytics page's "Extraction Accuracy"
metric displays exactly the stored column, which can disagree with the
recomputed accuracy. -/
theorem C2_amended :
    (∀ (row : TraitRow) (q : ℚ),
      extracted_accuracy_stat { row with extraction_accuracy_pct := q } =
        extracted_accuracy_stat row ∧
      sidebar_accuracy_metric { row with extraction_accuracy_pct := q } =
        sidebar_accuracy_metric row) ∧
    (∀ row : TraitRow,
      analytics_accuracy_metric row = row.extraction_accuracy_pct) ∧
    analytics_accuracy_metric rowC2 ≠ extracted_accuracy_stat rowC2 := by
  refine ⟨fun row q => ⟨rfl, rfl⟩, fun row => rfl, ?_⟩
  rw [rowC2_recomputed_zero]
  norm_num [analytics_accuracy_metric, rowC2]

/-! ## Claim C9 -/

/-- C9 is false as stated: for the trait value `"not found"` (space, no
underscore) the sidebar and analytics copies count the field as found,
but the extracted-traits copy, which additionally tests the substring
`NOT FOUND`, counts it as not found. -/
theorem C9_counterexample :
    sidebar_actual_found recC9 trait_field_names = 1 ∧
    analytics_extracted recC9 trait_field_names = 1 ∧
    extracted_actual_found recC9 trait_field_names = 0 := by
  decide

/-- C9 (amended): the sidebar and analytics copies agree on every record;
the extracted-traits copy agrees with them on every record none of whose
fields holds a nonempty stripped value containing `NOT FOUND` (with a
space) but not `NOT_FOUND`, case-insensitively — the exact condition on
which its extra test fires. -/
theorem C9_amended (r : Record) (fields : List String)
    (h : ∀ f ∈ fields, space_only_sentinel (recGet r f) = false) :
    sidebar_actual_found r fields = analytics_extracted r fields ∧
    extracted_actual_found r fields = sidebar_actual_found r fields := by
  constructor
  · rfl
  · unfold extracted_actual_found sidebar_actual_found
    apply countP_eq_of_mem_eq
    intro g hg
    exact extracted_eq_sidebar_field _ (h g hg)

/-- Witness for C9 on the all-sentinel record, where no field triggers the
space-only divergence. -/
theorem C9_witness :
    sidebar_actual_found recAllNotFound trait_field_names =
      analytics_extracted recAllNotFound trait_field_names ∧
    extracted_actual_found recAllNotFound trait_field_names =
      sidebar_actual_found recAllNotFound trait_field_names :=
  C9_amended recAllNotFound trait_field_names (by decide)

/-! ## Claim C10 -/

/-- C10 is false as stated: on a record whose only scorer-found field is
`EVIDENCE_TYPE`, the scorer reports `found_count = 1` while zero cards
carry the "Found" badge, because the 14-entry display list has no card for
`EVIDENCE_TYPE`. -/
theorem C10_counterexample :
    extracted_actual_found recC10 trait_field_names = 1 ∧
    display_found_cards recC10 = 0 := by
  decide

/-- C10 (amended): when every display field key is present and no
displayed value strips to the case-sensitive literals `"None"`, `"NULL"`
or `"Not in paper"` (which only the card classifier treats as missing),
each card's Found badge agrees with the scorer on that field, and the
number of Found cards equals `found_count` minus the contribution of the
card-less `EVIDENCE_TYPE` field. -/
theorem C10_amended (r : Record)
    (_hkeys : ∀ f ∈ trait_fields, recHasKey r (pyUpper f) = true)
    (hlit : ∀ f ∈ trait_fields,
      literal_sentinel (recGet r (pyUpper f)) = false) :
    (∀ f ∈ trait_fields,
      (!(display_is_missing (recGet r (pyUpper f)))) =
        extracted_field_found (recGet r (pyUpper f))) ∧
    display_found_cards r +
      (if extracted_field_found (recGet r "EVIDENCE_TYPE") then 1 else 0) =
      extracted_actual_found r trait_field_names := by
  have hagree : ∀ f ∈ trait_fields,
      (!(display_is_missing (recGet r (pyUpper f)))) =
        extracted_field_found (recGet r (pyUpper f)) :=
    fun f hf => display_agrees _ (hlit f hf)
  refine ⟨hagree, ?_⟩
  unfold extracted_actual_found
  rw [List.Perm.countP_eq _ trait_names_perm, List.countP_append,
    List.countP_map]
  have hone : (["EVIDENCE_TYPE"] : List String).countP
      (fun field => extracted_field_found (recGet r field)) =
      (if extracted_field_found (recGet r "EVIDENCE_TYPE") then 1 else 0) := by
    rw [List.countP_cons, List.countP_nil]
    simp
  rw [hone]
  have hcards : display_found_cards r =
      trait_fields.countP
        (fun field => extracted_field_found (recGet r (pyUpper field))) := by
    unfold display_found_cards
    exact countP_eq_of_mem_eq _ _ _ hagree
  rw [hcards]
  rfl

/-- Witness for C10 on the all-sentinel record: every key is present, no
literal sentinel occurs, zero cards are Found and `found_count` is zero. -/
theorem C10_witness :
    (∀ f ∈ trait_fields,
      (!(display_is_missing (recGet recAllNotFound (pyUpper f)))) =
        extracted_field_found (recGet recAllNotFound (pyUpper f))) ∧
    display_found_cards recAllNotFound +
      (if extracted_field_found (recGet recAllNotFound "EVIDENCE_TYPE")
        then 1 else 0) =
      extracted_actual_found recAllNotFound trait_field_names :=
  C10_amended recAllNotFound (by decide) (by decide)

/-! ## Claim C3 -/

/-- C3 is false as stated: on the malformed input the parse error is
caught by the `except` branch, which shows a warning and produces no
tally at all — not a mapping of every label to zero. -/
theorem C3_counterexample :
    analytics_citation_counts (some strBadJson) = none ∧
    analytics_citation_counts (some strBadJson) ≠ some (0, 0, 0) := by
  decide

/-- C3 (amended): on null or empty citations input every label tallies
zero; when the string does not parse to a JSON object the raised exception
is caught inside the block (it never reaches the caller) and no tally is
produced — the warning path, `none`. -/
theorem analytics_citation_counts_some (s : String) :
    analytics_citation_counts (some s) =
      (if s = "" then some (0, 0, 0)
       else
         match json_loads s with
         | some (Json.obj kvs) =>
           some (count_label kvs "Phase1", count_label kvs "Phase2",
             count_label kvs "LLM")
         | some _ => none
         | none => none) := rfl

theorem C3_amended (s : String) (h1 : s ≠ "")
    (h2 : (json_loads s).all (fun j => !(Json.isObj j)) = true) :
    analytics_citation_counts none = some (0, 0, 0) ∧
    analytics_citation_counts (some "") = some (0, 0, 0) ∧
    analytics_citation_counts (some s) = none := by
  refine ⟨rfl, rfl, ?_⟩
  rw [analytics_citation_counts_some, if_neg h1]
  cases hj : json_loads s with
  | none => rfl
  | some j =>
    rw [hj] at h2
    cases j with
    | obj kvs => simp [Option.all, Json.isObj] at h2
    | null => rfl
    | bool b => rfl
    | num lex => rfl
    | str s2 => rfl
    | arr items => rfl

/-- Witness for C3 at the spec's malformed example input. -/
theorem C3_witness :
    analytics_citation_counts none = some (0, 0, 0) ∧
    analytics_citation_counts (some "") = some (0, 0, 0) ∧
    analytics_citation_counts (some strBadJson) = none :=
  C3_amended strBadJson (by decide) (by decide)

/-! ## Claim C5 -/

/-- C5: each label's tally counts the values of the parsed mapping whose
`str()` form contains the label as a case-sensitive substring, values
counting independently toward every label they contain; on the spec's
example JSON the full pipeline yields Phase1 = 2, Phase2 = 1 (and LLM = 0). -/
theorem C5_tally :
    analytics_citation_counts (some strC5) = some (2, 1, 0) ∧
    (∀ (citations : List (String × Json)) (label : String),
      count_label citations label =
        ((citations.map (fun kv => pyStr kv.2)).filter
          (fun s => strContains s label)).length) ∧
    (∀ (k : String) (v : Json) (rest : List (String × Json)),
      strContains (pyStr v) "Phase1" = true →
      strContains (pyStr v) "Phase2" = true →
      count_label ((k, v) :: rest) "Phase1" = count_label rest "Phase1" + 1 ∧
      count_label ((k, v) :: rest) "Phase2" = count_label rest "Phase2" + 1) := by
  refine ⟨by decide, ?_, ?_⟩
  · intro citations label
    unfold count_label
    rw [← List.countP_eq_length_filter, List.countP_map]
    rfl
  · intro k v rest h1 h2
    unfold count_label
    constructor <;> simp [List.countP_cons, h1, h2]

/-- Witness for C5: a single value containing both labels increments both
tallies. -/
theorem C5_witness :
    count_label [("trait", Json.str "Phase1/Phase2 consensus")] "Phase1" =
      count_label [] "Phase1" + 1 ∧
    count_label [("trait", Json.str "Phase1/Phase2 consensus")] "Phase2" =
      count_label [] "Phase2" + 1 :=
  C5_tally.2.2 "trait" (Json.str "Phase1/Phase2 consensus") []
    (by decide) (by decide)
